import Mathlib

/-!
Verification of the agent router of SK-Agentry.

The router `src/AI/src/api/agent/routers/agent.py` and the user model
`src/AI/src/api/user/models/user.py` are embedded shallowly below.
Database tables are lists of rows in a `DB` record; each FastAPI handler
becomes a pure function from the database state (and the authenticated
user) to either a value or an `HTTPError`, mirroring `HTTPException`.
The CRUD helpers of `api.agent.cruds.agent`, the `UserReport` model and
the external `analyze_company` / `load_vector_db` collaborators are not
part of the provided sources; where a definition stands in for them it
is modelled from the specification and says so in its doc comment.
-/

/-- Report format tag. Modelled from the spec: the router only ever uses
the fixed tag `MD`; the spec calls it a "fixed format tag". A second tag
is included so that equalities with `MD` are not vacuous. -/
inductive ReportTypeEnum where
  | MD
  | PDF
deriving DecidableEq, Repr

/-- A row of the `users` table, from `src/AI/src/api/user/models/user.py`.
The `industry` and `interests` enum columns are nullable; they are held
here as the string `.value` the router extracts, wrapped in `Option` for
nullability. Timestamps are abstract ticks (`Nat`). -/
structure User where
  user_id : Nat
  id : String
  password : String
  name : String
  industry : Option String
  scale : Int
  interests : Option String
  budget_size : Float
  created_date : Nat
  modified_date : Nat

/-- A row of the user-report table. Modelled from the spec: `UserReport`
is "a generated artifact reference (filename, format, creation
timestamp) belonging to exactly one User"; the router additionally
reads `report_id`, `user_id`, `filename` and `created_date` from it. -/
structure UserReport where
  report_id : Nat
  user_id : Nat
  filename : String
  format : ReportTypeEnum
  created_date : Nat
deriving DecidableEq, Repr

/-- A row of the agent catalog table. Field set taken from the
projection built in the router's `get_all_agents` handler. -/
structure Agent where
  agent_id : Nat
  name : String
  display_name : String
  description : String
  category : String
  llm_type : String
  language : String
  features : List String
  is_active : Bool
  image_url : String
deriving DecidableEq, Repr

/-- A recommended-agent association row. Modelled from the spec: an
"association between a User and one or more Agents produced as a side
effect of analysis". The agent reference is kept opaque as a string. -/
structure RecommendedAgent where
  user_id : Nat
  agent_ref : String
deriving DecidableEq, Repr

/-- The database state visible to the router: one list per table, a
fresh-id counter for report creation, and the report-file storage as a
total map from filename to raw text. -/
structure DB where
  reports : List UserReport
  recommendedAgents : List RecommendedAgent
  agents : List Agent
  files : String → String
  next_report_id : Nat

/-- Payload of `UserCreateReport`, the schema the router fills before
calling `create_user_report`. -/
structure UserCreateReport where
  user_id : Nat
  filename : String
  format : ReportTypeEnum
deriving DecidableEq, Repr

/-- Result payload of the external analysis routine: per the spec,
`analyze(companyName, vectorStoreHandle, profileSummary) ->
{summaryReportFile, recommendedAgents}`. -/
structure AnalysisResult where
  summary_report_file : String
  recommended_agents : List String
deriving DecidableEq, Repr

/-- Opaque vector store handle returned by `load_vector_db`. -/
structure VectorDB where
  handle : Nat
deriving DecidableEq, Repr

/-- The `user_data` dictionary the router builds before invoking the
analysis (`agent.py` lines 42-48). -/
structure UserData where
  industry : String
  scale : String
  interests : String
  budget_size : Float
  created_date : Option Nat

/-- Mirror of FastAPI's `HTTPException`: a status code and a detail
message. -/
structure HTTPError where
  status_code : Nat
  detail : String
deriving DecidableEq, Repr

namespace report_crud

/-- Modelled from the spec: `get_report_by_id` of the CRUD module
(absent from the sources) returns "either the requested entity ... or
an absence signal"; fetching a report by its primary key. -/
def get_report_by_id (db : DB) (report_id : Nat) : Option UserReport :=
  db.reports.find? (fun r => r.report_id == report_id)

/-- Modelled from the spec: "list reports by user" — all report rows
whose owner is the given user. -/
def get_reports_by_user_id (db : DB) (user_id : Nat) : List UserReport :=
  db.reports.filter (fun r => r.user_id == user_id)

/-- Modelled from the spec: "returns all RecommendedAgent entries ...
for current user". -/
def get_recommended_agents_by_user (db : DB) (user_id : Nat) : List RecommendedAgent :=
  db.recommendedAgents.filter (fun r => r.user_id == user_id)

/-- Modelled from the spec: "list/get agents" — the full agent catalog. -/
def get_all_agents (db : DB) : List Agent :=
  db.agents

/-- Modelled from the spec: fetch a single agent by id, absence signal
when missing. -/
def get_agent_by_id (db : DB) (agent_id : Nat) : Option Agent :=
  db.agents.find? (fun a => a.agent_id == agent_id)

/-- Modelled from the spec: "loads report file body from storage and
returns raw text" — the content stored under the report's filename. -/
def read_report_markdown_content (db : DB) (report : UserReport) : String :=
  db.files report.filename

/-- Modelled from the spec: "create report" persists a new report row
built from the payload, with a fresh id and the creation timestamp
`now`, and returns the created row. -/
def create_user_report (db : DB) (data : UserCreateReport) (now : Nat) :
    DB × UserReport :=
  let r : UserReport :=
    { report_id := db.next_report_id
      user_id := data.user_id
      filename := data.filename
      format := data.format
      created_date := now }
  ({ db with reports := db.reports ++ [r], next_report_id := db.next_report_id + 1 }, r)

/-- Modelled from the spec: "persist one RecommendedAgent row per agent
in the returned recommendation list, associated to the current user". -/
def create_recommended_agents (db : DB) (user_id : Nat)
    (recommended_agents : List String) : DB :=
  { db with recommendedAgents :=
      db.recommendedAgents ++ recommended_agents.map (fun a => ⟨user_id, a⟩) }

end report_crud

/-- The maximum of a list of timestamps, `none` on the empty list. This
renders the router's `ORDER BY created_date DESC LIMIT 1` query: the
row it returns carries the maximal `created_date` (ties broken
arbitrarily, which cannot affect the date itself). -/
def maxDate : List Nat → Option Nat
  | [] => none
  | d :: ds =>
    match maxDate ds with
    | none => some d
    | some m => some (max d m)

namespace agent

/-- The latest-report-date lookup at the start of `run_company_analysis`
(`agent.py` lines 32-39): the `created_date` of the user's most recent
report, or `none` when the user owns no report. -/
def latestReportDate (db : DB) (user_id : Nat) : Option Nat :=
  maxDate ((db.reports.filter (fun r => r.user_id == user_id)).map
    (fun r => r.created_date))

/-- The scale-tier bucketing on `agent.py` line 44:
`"스타트업"` (startup) below 50, `"중소기업"` (SMB) below 300,
`"대기업"` (enterprise) otherwise. -/
def scaleTier (scale : Int) : String :=
  if scale < 50 then "스타트업"
  else if scale < 300 then "중소기업"
  else "대기업"

/-- The `user_data` dictionary built on `agent.py` lines 42-48:
industry and interests default to `"정보 없음"` ("no information") when
the nullable column is absent. -/
def mkUserData (current_user : User) (latest_created_date : Option Nat) : UserData :=
  { industry := current_user.industry.getD "정보 없음"
    scale := scaleTier current_user.scale
    interests := current_user.interests.getD "정보 없음"
    budget_size := current_user.budget_size
    created_date := latest_created_date }

/-- The `POST /agent/analyze` handler (`agent.py` lines 23-71). The
external collaborators enter as parameters: `load_vector_db` is the
loaded vector store (or its failure), `analyze_company` the analysis
routine (or its failure). Returns the database after the handler's
writes together with the response. -/
def run_company_analysis
    (load_vector_db : Except String VectorDB)
    (analyze_company : String → VectorDB → UserData → Except String AnalysisResult)
    (current_user : User) (now : Nat) (db : DB) :
    DB × Except String UserReport :=
  let company_name := current_user.name
  let latest_created_date := latestReportDate db current_user.user_id
  let user_data := mkUserData current_user latest_created_date
  match load_vector_db with
  | .error e => (db, .error e)
  | .ok vector_db =>
    match analyze_company company_name vector_db user_data with
    | .error e => (db, .error e)
    | .ok result =>
      let report_data : UserCreateReport :=
        { user_id := current_user.user_id
          filename := result.summary_report_file
          format := ReportTypeEnum.MD }
      let step := report_crud.create_user_report db report_data now
      let new_report := step.2
      let db2 := report_crud.create_recommended_agents step.1
        current_user.user_id result.recommended_agents
      (db2, .ok new_report)

/-- Detail message of the 404 raised by `get_report` and
`get_report_content`: "report not found". -/
def reportNotFoundDetail : String := "리포트를 찾을 수 없습니다."

/-- The `GET /agent/getRecom` handler (`agent.py` lines 73-81): 404
with "no recommended agents" when the user's list is empty. -/
def get_my_recommended_agents (db : DB) (current_user : User) :
    Except HTTPError (List RecommendedAgent) :=
  let result := report_crud.get_recommended_agents_by_user db current_user.user_id
  if result.isEmpty then .error ⟨404, "추천 에이전트가 없습니다."⟩
  else .ok result

/-- The `GET /agent/getAllReport` handler (`agent.py` lines 84-90). -/
def get_my_reports (db : DB) (current_user : User) :
    Except HTTPError (List UserReport) :=
  .ok (report_crud.get_reports_by_user_id db current_user.user_id)

/-- One entry of the `GET /agent/all` response: the dict literal built
in the handler's list comprehension (`agent.py` lines 98-111). -/
structure AgentOut where
  agent_id : Nat
  name : String
  display_name : String
  description : String
  category : String
  llm_type : String
  language : String
  features : List String
  is_active : Bool
  image_url : String
deriving DecidableEq, Repr

/-- The `GET /agent/all` handler (`agent.py` lines 92-112): every agent
row, projected to the fixed ten-field dict. No user parameter exists. -/
def get_all_agents (db : DB) : List AgentOut :=
  (report_crud.get_all_agents db).map (fun agent =>
    { agent_id := agent.agent_id
      name := agent.name
      display_name := agent.display_name
      description := agent.description
      category := agent.category
      llm_type := agent.llm_type
      language := agent.language
      features := agent.features
      is_active := agent.is_active
      image_url := agent.image_url })

/-- The `GET /agent/{report_id}` handler (`agent.py` lines 115-124). -/
def get_report (db : DB) (report_id : Nat) (current_user : User) :
    Except HTTPError UserReport :=
  match report_crud.get_report_by_id db report_id with
  | none => .error ⟨404, reportNotFoundDetail⟩
  | some report =>
    if report.user_id != current_user.user_id then
      .error ⟨404, reportNotFoundDetail⟩
    else
      .ok report

/-- The `GET /agent/report/{report_id}/content` handler (`agent.py`
lines 127-140): same ownership check as `get_report`, then the file
body. -/
def get_report_content (db : DB) (report_id : Nat) (current_user : User) :
    Except HTTPError String :=
  match report_crud.get_report_by_id db report_id with
  | none => .error ⟨404, reportNotFoundDetail⟩
  | some report =>
    if report.user_id != current_user.user_id then
      .error ⟨404, reportNotFoundDetail⟩
    else
      .ok (report_crud.read_report_markdown_content db report)

/-- The `GET /agent/detail/{agent_id}` handler (`agent.py` lines
142-150). No user parameter exists. -/
def get_agent_detail (db : DB) (agent_id : Nat) :
    Except HTTPError Agent :=
  match report_crud.get_agent_by_id db agent_id with
  | none => .error ⟨404, "해당 에이전트를 찾을 수 없습니다."⟩
  | some agent_info => .ok agent_info

end agent

/-! Concrete database used by the witness theorems. -/

/-- Sample report owned by user 1, created at tick 5. -/
def rep1 : UserReport := ⟨1, 1, "r1.md", .MD, 5⟩

/-- Sample report owned by user 1, created at tick 9. -/
def rep2 : UserReport := ⟨2, 1, "r2.md", .MD, 9⟩

/-- Sample report owned by user 2, created at tick 7. -/
def rep3 : UserReport := ⟨3, 2, "r3.md", .MD, 7⟩

/-- Sample catalog agent. -/
def agentEx : Agent := ⟨1, "a", "Agent A", "d", "cat", "llm", "ko", ["f"], true, "img"⟩

/-- Sample database: three reports, one recommendation for user 1, one
catalog agent, every file reading "body". -/
def dbEx : DB := ⟨[rep1, rep2, rep3], [⟨1, "a"⟩], [agentEx], fun _ => "body", 4⟩

/-- Sample requesting user with id 1, industry and interests present. -/
def user1 : User := ⟨1, "alice", "pw", "Alice", some "IT", 10, some "ML", 0.0, 0, 0⟩

/-- Sample user with id 3 owning nothing, industry and interests absent. -/
def user3 : User := ⟨3, "carol", "pw", "Carol", none, 500, none, 1.0, 0, 0⟩

/-- Sample vector store handle. -/
def vdbEx : VectorDB := ⟨0⟩

/-- Sample analysis result: one report file and one recommended agent. -/
def anlzResult : AnalysisResult := ⟨"s.md", ["x"]⟩

/-- Sample analysis routine that always succeeds with `anlzResult`. -/
def anlz : String → VectorDB → UserData → Except String AnalysisResult :=
  fun _ _ _ => .ok anlzResult

/-- Sample analysis routine that always fails. -/
def anlzFail : String → VectorDB → UserData → Except String AnalysisResult :=
  fun _ _ _ => .error "boom"

/-! Helper lemmas about `maxDate`. -/

/-- `maxDate` misses exactly on the empty list. -/
theorem maxDate_eq_none (l : List Nat) : maxDate l = none ↔ l = [] := by
  cases l with
  | nil => simp [maxDate]
  | cons d ds =>
    simp only [maxDate]
    cases maxDate ds <;> simp

/-- A value returned by `maxDate` is attained and bounds the list. -/
theorem maxDate_spec (l : List Nat) :
    ∀ m, maxDate l = some m → m ∈ l ∧ ∀ d ∈ l, d ≤ m := by
  induction l with
  | nil => intro m h; simp [maxDate] at h
  | cons d ds ih =>
    intro m h
    simp only [maxDate] at h
    cases hds : maxDate ds with
    | none =>
      rw [hds] at h
      have hnil : ds = [] := (maxDate_eq_none ds).mp hds
      subst hnil
      simp only [Option.some.injEq] at h
      subst h
      simp
    | some m' =>
      rw [hds] at h
      simp only [Option.some.injEq] at h
      subst h
      obtain ⟨hmem, hle⟩ := ih m' hds
      constructor
      · rcases Nat.le_total d m' with hdm | hmd
        · rw [Nat.max_eq_right hdm]
          exact List.mem_cons_of_mem d hmem
        · rw [Nat.max_eq_left hmd]
          exact List.mem_cons_self d ds
      · intro x hx
        rcases List.mem_cons.mp hx with hx | hx
        · subst hx
          exact Nat.le_max_left _ _
        · exact le_trans (hle x hx) (Nat.le_max_right _ _)

/-- C3: the scale-tier derivation on `agent.py` line 44 is a pure
function of the scale: below 50 it yields the startup tier
("스타트업"), from 50 up to but excluding 300 the SMB tier
("중소기업"), and from 300 on the enterprise tier ("대기업"); in
particular 49, 50, 299 and 300 map to startup, SMB, SMB and enterprise
respectively. -/
theorem C3_scale_tier_pure (scale : Int) :
    (scale < 50 → agent.scaleTier scale = "스타트업") ∧
    (50 ≤ scale → scale < 300 → agent.scaleTier scale = "중소기업") ∧
    (300 ≤ scale → agent.scaleTier scale = "대기업") ∧
    agent.scaleTier 49 = "스타트업" ∧
    agent.scaleTier 50 = "중소기업" ∧
    agent.scaleTier 299 = "중소기업" ∧
    agent.scaleTier 300 = "대기업" := by
  refine ⟨?_, ?_, ?_, rfl, rfl, rfl, rfl⟩
  · intro h
    simp [agent.scaleTier, h]
  · intro h1 h2
    have hn : ¬ scale < 50 := by omega
    simp [agent.scaleTier, hn, h2]
  · intro h
    have h1 : ¬ scale < 50 := by omega
    have h2 : ¬ scale < 300 := by omega
    simp [agent.scaleTier, h1, h2]

/-- Witness for C3 at scales 10, 100 and 1000. -/
theorem C3_scale_tier_pure_witness :
    agent.scaleTier 10 = "스타트업" ∧
    agent.scaleTier 100 = "중소기업" ∧
    agent.scaleTier 1000 = "대기업" :=
  ⟨(C3_scale_tier_pure 10).1 (by norm_num),
   (C3_scale_tier_pure 100).2.1 (by norm_num) (by norm_num),
   (C3_scale_tier_pure 1000).2.2.1 (by norm_num)⟩

/-- C4: the latest-report-date lookup at the start of
`run_company_analysis` returns `none` when the user owns zero prior
reports, and otherwise the maximal `created_date` among the user's
reports: the returned value is attained by one of them and bounds all
of them (on exact ties the date is the same whichever row the query
returns). -/
theorem C4_latest_report_date (db : DB) (uid : Nat) :
    (db.reports.filter (fun r => r.user_id == uid) = [] →
      agent.latestReportDate db uid = none) ∧
    (∀ m, agent.latestReportDate db uid = some m →
      (∃ r ∈ db.reports.filter (fun r => r.user_id == uid), r.created_date = m) ∧
      ∀ r ∈ db.reports.filter (fun r => r.user_id == uid), r.created_date ≤ m) ∧
    (db.reports.filter (fun r => r.user_id == uid) ≠ [] →
      ∃ m, agent.latestReportDate db uid = some m) := by
  refine ⟨?_, ?_, ?_⟩
  · intro h
    unfold agent.latestReportDate
    rw [h]
    rfl
  · intro m h
    unfold agent.latestReportDate at h
    obtain ⟨hmem, hle⟩ := maxDate_spec _ m h
    constructor
    · obtain ⟨r, hr, hrd⟩ := List.mem_map.mp hmem
      exact ⟨r, hr, hrd⟩
    · intro r hr
      exact hle r.created_date (List.mem_map.mpr ⟨r, hr, rfl⟩)
  · intro h
    cases hmax : agent.latestReportDate db uid with
    | none =>
      unfold agent.latestReportDate at hmax
      have := (maxDate_eq_none _).mp hmax
      rw [List.map_eq_nil_iff] at this
      exact absurd this h
    | some m => exact ⟨m, rfl⟩

/-- Witness for C4 on `dbEx`: user 1's latest date is 9 (attained and
maximal), and user 3, owning nothing, gets `none`. -/
theorem C4_latest_report_date_witness :
    ((∃ r ∈ dbEx.reports.filter (fun r => r.user_id == 1), r.created_date = 9) ∧
      ∀ r ∈ dbEx.reports.filter (fun r => r.user_id == 1), r.created_date ≤ 9) ∧
    agent.latestReportDate dbEx 3 = none :=
  ⟨(C4_latest_report_date dbEx 1).2.1 9 (by decide),
   (C4_latest_report_date dbEx 3).1 (by decide)⟩

/-- C1: `get_report` and `get_report_content` answer the uniform 404
whenever the report id misses or the row belongs to another user; when
the row exists and is owned by the requester, `get_report` returns it
and `get_report_content` returns its stored file body. -/
theorem C1_report_ownership (db : DB) (rid : Nat) (u : User) :
    ((report_crud.get_report_by_id db rid = none ∨
      ∃ r, report_crud.get_report_by_id db rid = some r ∧ r.user_id ≠ u.user_id) →
      agent.get_report db rid u = .error ⟨404, agent.reportNotFoundDetail⟩ ∧
      agent.get_report_content db rid u = .error ⟨404, agent.reportNotFoundDetail⟩) ∧
    (∀ r, report_crud.get_report_by_id db rid = some r → r.user_id = u.user_id →
      agent.get_report db rid u = .ok r ∧
      agent.get_report_content db rid u =
        .ok (report_crud.read_report_markdown_content db r)) := by
  constructor
  · rintro (h | ⟨r, hr, hne⟩)
    · simp [agent.get_report, agent.get_report_content, h]
    · simp [agent.get_report, agent.get_report_content, hr, hne]
  · intro r hr heq
    simp [agent.get_report, agent.get_report_content, hr, heq]

/-- Witness for C1 on `dbEx`: user 1 reads own report 1 and its body,
and gets 404 on missing id 99. -/
theorem C1_report_ownership_witness :
    (agent.get_report dbEx 1 user1 = .ok rep1 ∧
      agent.get_report_content dbEx 1 user1 =
        .ok (report_crud.read_report_markdown_content dbEx rep1)) ∧
    agent.get_report dbEx 99 user1 = .error ⟨404, agent.reportNotFoundDetail⟩ :=
  ⟨(C1_report_ownership dbEx 1 user1).2 rep1 (by decide) (by decide),
   ((C1_report_ownership dbEx 99 user1).1 (Or.inl (by decide))).1⟩

/-- C6: `get_my_recommended_agents` raises the 404 exactly when the
user's recommended-agent list is empty, and otherwise returns that
whole list. -/
theorem C6_recommended_agents_404_iff_empty (db : DB) (u : User) :
    (agent.get_my_recommended_agents db u =
        .error ⟨404, "추천 에이전트가 없습니다."⟩ ↔
      report_crud.get_recommended_agents_by_user db u.user_id = []) ∧
    (report_crud.get_recommended_agents_by_user db u.user_id ≠ [] →
      agent.get_my_recommended_agents db u =
        .ok (report_crud.get_recommended_agents_by_user db u.user_id)) := by
  by_cases h : report_crud.get_recommended_agents_by_user db u.user_id = []
  · refine ⟨⟨fun _ => h, fun _ => ?_⟩, fun hne => absurd h hne⟩
    simp [agent.get_my_recommended_agents, h]
  · constructor
    · constructor
      · intro habs
        simp [agent.get_my_recommended_agents, List.isEmpty_iff, h] at habs
      · intro habs
        exact absurd habs h
    · intro _
      simp [agent.get_my_recommended_agents, List.isEmpty_iff, h]

/-- Witness for C6 on `dbEx`: user 1 has one recommendation and gets
it back; user 3 has none and gets the 404. -/
theorem C6_recommended_agents_404_iff_empty_witness :
    agent.get_my_recommended_agents dbEx user1 =
      .ok (report_crud.get_recommended_agents_by_user dbEx 1) ∧
    agent.get_my_recommended_agents dbEx user3 =
      .error ⟨404, "추천 에이전트가 없습니다."⟩ :=
  ⟨(C6_recommended_agents_404_iff_empty dbEx user1).2 (by decide),
   (C6_recommended_agents_404_iff_empty dbEx user3).1.mpr (by decide)⟩

/-- C7: a request for a report that exists but belongs to another user
and a request for a report id that does not exist at all produce
identical responses, both from `get_report` and from
`get_report_content`: the same 404 with the same fixed message, so the
requester cannot tell "missing" from "forbidden". -/
theorem C7_uniform_not_found (db : DB) (u : User) (rid₁ rid₂ : Nat)
    (r : UserReport)
    (h1 : report_crud.get_report_by_id db rid₁ = some r)
    (h2 : r.user_id ≠ u.user_id)
    (h3 : report_crud.get_report_by_id db rid₂ = none) :
    agent.get_report db rid₁ u = agent.get_report db rid₂ u ∧
    agent.get_report db rid₁ u = .error ⟨404, agent.reportNotFoundDetail⟩ ∧
    agent.get_report_content db rid₁ u = agent.get_report_content db rid₂ u ∧
    agent.get_report_content db rid₁ u =
      .error ⟨404, agent.reportNotFoundDetail⟩ := by
  have e1 : agent.get_report db rid₁ u = .error ⟨404, agent.reportNotFoundDetail⟩ := by
    simp [agent.get_report, h1, h2]
  have e2 : agent.get_report db rid₂ u = .error ⟨404, agent.reportNotFoundDetail⟩ := by
    simp [agent.get_report, h3]
  have e3 : agent.get_report_content db rid₁ u =
      .error ⟨404, agent.reportNotFoundDetail⟩ := by
    simp [agent.get_report_content, h1, h2]
  have e4 : agent.get_report_content db rid₂ u =
      .error ⟨404, agent.reportNotFoundDetail⟩ := by
    simp [agent.get_report_content, h3]
  exact ⟨e1.trans e2.symm, e1, e3.trans e4.symm, e3⟩

/-- Witness for C7 on `dbEx`: report 3 belongs to user 2, id 99 is
missing; user 1 sees the same 404 for both. -/
theorem C7_uniform_not_found_witness :
    agent.get_report dbEx 3 user1 = agent.get_report dbEx 99 user1 ∧
    agent.get_report dbEx 3 user1 = .error ⟨404, agent.reportNotFoundDetail⟩ ∧
    agent.get_report_content dbEx 3 user1 = agent.get_report_content dbEx 99 user1 ∧
    agent.get_report_content dbEx 3 user1 =
      .error ⟨404, agent.reportNotFoundDetail⟩ :=
  C7_uniform_not_found dbEx user1 3 99 rep3 (by decide) (by decide) (by decide)

/-- C9: `get_my_reports` never raises: it always answers `ok` with the
user's report list, the empty list included, whereas
`get_my_recommended_agents` turns an empty result into the 404. -/
theorem C9_my_reports_never_404 (db : DB) (u : User) :
    agent.get_my_reports db u =
      .ok (report_crud.get_reports_by_user_id db u.user_id) ∧
    (report_crud.get_reports_by_user_id db u.user_id = [] →
      agent.get_my_reports db u = .ok ([] : List UserReport)) ∧
    (report_crud.get_recommended_agents_by_user db u.user_id = [] →
      agent.get_my_recommended_agents db u =
        .error ⟨404, "추천 에이전트가 없습니다."⟩) := by
  refine ⟨rfl, ?_, ?_⟩
  · intro h
    simp [agent.get_my_reports, h]
  · intro h
    simp [agent.get_my_recommended_agents, h]

/-- Witness for C9 on `dbEx`: user 3 owns zero reports and still gets
a success with the empty list, while the same user's recommendation
lookup raises the 404. -/
theorem C9_my_reports_never_404_witness :
    agent.get_my_reports dbEx user3 = .ok ([] : List UserReport) ∧
    agent.get_my_recommended_agents dbEx user3 =
      .error ⟨404, "추천 에이전트가 없습니다."⟩ :=
  ⟨(C9_my_reports_never_404 dbEx user3).2.1 (by decide),
   (C9_my_reports_never_404 dbEx user3).2.2 (by decide)⟩

/-- C8: `get_all_agents` and `get_agent_detail` take no user input at
all (their only inputs are the database and, for the detail route, the
agent id), `get_all_agents` maps every catalog row, in order and
without pagination, to exactly the fixed ten-field projection, and
`get_agent_detail` answers 404 exactly when the id misses and the row
itself otherwise. -/
theorem C8_agents_public (db : DB) (agent_id : Nat) :
    (agent.get_all_agents db).length = (report_crud.get_all_agents db).length ∧
    (∀ i : Nat,
      ((agent.get_all_agents db)[i]?.map (fun p => p.agent_id) =
        (report_crud.get_all_agents db)[i]?.map (fun a => a.agent_id)) ∧
      ((agent.get_all_agents db)[i]?.map (fun p => p.name) =
        (report_crud.get_all_agents db)[i]?.map (fun a => a.name)) ∧
      ((agent.get_all_agents db)[i]?.map (fun p => p.display_name) =
        (report_crud.get_all_agents db)[i]?.map (fun a => a.display_name)) ∧
      ((agent.get_all_agents db)[i]?.map (fun p => p.description) =
        (report_crud.get_all_agents db)[i]?.map (fun a => a.description)) ∧
      ((agent.get_all_agents db)[i]?.map (fun p => p.category) =
        (report_crud.get_all_agents db)[i]?.map (fun a => a.category)) ∧
      ((agent.get_all_agents db)[i]?.map (fun p => p.llm_type) =
        (report_crud.get_all_agents db)[i]?.map (fun a => a.llm_type)) ∧
      ((agent.get_all_agents db)[i]?.map (fun p => p.language) =
        (report_crud.get_all_agents db)[i]?.map (fun a => a.language)) ∧
      ((agent.get_all_agents db)[i]?.map (fun p => p.features) =
        (report_crud.get_all_agents db)[i]?.map (fun a => a.features)) ∧
      ((agent.get_all_agents db)[i]?.map (fun p => p.is_active) =
        (report_crud.get_all_agents db)[i]?.map (fun a => a.is_active)) ∧
      ((agent.get_all_agents db)[i]?.map (fun p => p.image_url) =
        (report_crud.get_all_agents db)[i]?.map (fun a => a.image_url))) ∧
    (agent.get_agent_detail db agent_id =
        .error ⟨404, "해당 에이전트를 찾을 수 없습니다."⟩ ↔
      report_crud.get_agent_by_id db agent_id = none) ∧
    (∀ a, report_crud.get_agent_by_id db agent_id = some a →
      agent.get_agent_detail db agent_id = .ok a) := by
  refine ⟨by simp [agent.get_all_agents], ?_, ?_, ?_⟩
  · intro i
    cases h : (report_crud.get_all_agents db)[i]? <;>
      simp [agent.get_all_agents, List.getElem?_map, h]
  · cases h : report_crud.get_agent_by_id db agent_id <;>
      simp [agent.get_agent_detail, h]
  · intro a h
    simp [agent.get_agent_detail, h]

/-- Witness for C8 on `dbEx`: the detail route returns the catalog row
for id 1. -/
theorem C8_agents_public_witness :
    agent.get_agent_detail dbEx 1 = .ok agentEx :=
  (C8_agents_public dbEx 1).2.2.2 agentEx (by decide)

/-- C5: the profile summary handed to the analysis holds the user's
industry and interests when present and the "정보 없음" ("unknown")
default when absent, the user's scale tier, budget size and latest
prior report date; and `run_company_analysis` consults the analysis
routine only at the user's display name, the loaded vector store and
exactly that summary: two routines agreeing there give identical
handler outcomes. -/
theorem C5_analysis_inputs (u : User) (d : Option Nat) :
    ((u.industry = none → (agent.mkUserData u d).industry = "정보 없음") ∧
     (∀ i, u.industry = some i → (agent.mkUserData u d).industry = i) ∧
     (u.interests = none → (agent.mkUserData u d).interests = "정보 없음") ∧
     (∀ i, u.interests = some i → (agent.mkUserData u d).interests = i) ∧
     (agent.mkUserData u d).scale = agent.scaleTier u.scale ∧
     (agent.mkUserData u d).budget_size = u.budget_size ∧
     (agent.mkUserData u d).created_date = d) ∧
    (∀ (a₁ a₂ : String → VectorDB → UserData → Except String AnalysisResult)
       (vdb : VectorDB) (now : Nat) (db : DB),
      a₁ u.name vdb (agent.mkUserData u (agent.latestReportDate db u.user_id)) =
        a₂ u.name vdb (agent.mkUserData u (agent.latestReportDate db u.user_id)) →
      agent.run_company_analysis (.ok vdb) a₁ u now db =
        agent.run_company_analysis (.ok vdb) a₂ u now db) := by
  constructor
  · refine ⟨fun h => ?_, fun i h => ?_, fun h => ?_, fun i h => ?_, rfl, rfl, rfl⟩ <;>
      simp [agent.mkUserData, h]
  · intro a₁ a₂ vdb now db h
    simp only [agent.run_company_analysis]
    rw [h]

/-- Witness for C5: user 1 carries industry "IT", and the handler
outcome is the same for two (identical) analysis routines. -/
theorem C5_analysis_inputs_witness :
    (agent.mkUserData user1 (some 5)).industry = "IT" ∧
    agent.run_company_analysis (.ok vdbEx) anlz user1 0 dbEx =
      agent.run_company_analysis (.ok vdbEx) anlz user1 0 dbEx :=
  ⟨(C5_analysis_inputs user1 (some 5)).1.2.1 "IT" rfl,
   (C5_analysis_inputs user1 (some 5)).2 anlz anlz vdbEx 0 dbEx rfl⟩

/-- C2: when the vector store loads and the analysis succeeds with
`result`, the handler appends exactly one report row for the current
user — filename the result's `summary_report_file`, format the fixed
`MD` tag — appends exactly one recommendation row per entry of
`result.recommended_agents`, each associated to the current user,
touches nothing else, and returns the created report. -/
theorem C2_analyze_persists (lv : Except String VectorDB)
    (ac : String → VectorDB → UserData → Except String AnalysisResult)
    (u : User) (now : Nat) (db : DB) (vdb : VectorDB) (result : AnalysisResult)
    (h1 : lv = .ok vdb)
    (h2 : ac u.name vdb
        (agent.mkUserData u (agent.latestReportDate db u.user_id)) = .ok result) :
    (∃ rep : UserReport,
      agent.run_company_analysis lv ac u now db =
        ({ db with
            reports := db.reports ++ [rep]
            next_report_id := db.next_report_id + 1
            recommendedAgents := db.recommendedAgents ++
              result.recommended_agents.map (fun a => ⟨u.user_id, a⟩) },
          .ok rep) ∧
      rep.user_id = u.user_id ∧
      rep.filename = result.summary_report_file ∧
      rep.format = ReportTypeEnum.MD) ∧
    (agent.run_company_analysis lv ac u now db).1.reports.length =
      db.reports.length + 1 ∧
    (agent.run_company_analysis lv ac u now db).1.recommendedAgents.length =
      db.recommendedAgents.length + result.recommended_agents.length := by
  subst h1
  have hrun : agent.run_company_analysis (.ok vdb) ac u now db =
      ({ db with
          reports := db.reports ++
            [⟨db.next_report_id, u.user_id, result.summary_report_file,
              ReportTypeEnum.MD, now⟩]
          next_report_id := db.next_report_id + 1
          recommendedAgents := db.recommendedAgents ++
            result.recommended_agents.map (fun a => ⟨u.user_id, a⟩) },
        .ok ⟨db.next_report_id, u.user_id, result.summary_report_file,
          ReportTypeEnum.MD, now⟩) := by
    simp only [agent.run_company_analysis, h2]
    rfl
  refine ⟨⟨⟨db.next_report_id, u.user_id, result.summary_report_file,
      ReportTypeEnum.MD, now⟩, hrun, rfl, rfl, rfl⟩, ?_, ?_⟩ <;>
    rw [hrun] <;> simp

/-- Witness for C2: running the handler for user 1 on `dbEx` with the
always-succeeding analysis adds one report row and one recommendation
row. -/
theorem C2_analyze_persists_witness :
    (agent.run_company_analysis (.ok vdbEx) anlz user1 11 dbEx).1.reports.length =
      dbEx.reports.length + 1 ∧
    (agent.run_company_analysis (.ok vdbEx) anlz user1 11 dbEx).1.recommendedAgents.length =
      dbEx.recommendedAgents.length + anlzResult.recommended_agents.length :=
  ⟨(C2_analyze_persists (.ok vdbEx) anlz user1 11 dbEx vdbEx anlzResult rfl rfl).2.1,
   (C2_analyze_persists (.ok vdbEx) anlz user1 11 dbEx vdbEx anlzResult rfl rfl).2.2⟩

/-- C10: if loading the vector store fails, or the analysis invocation
itself fails, `run_company_analysis` leaves the database exactly as it
was — no report row and no recommendation row is created — and
propagates the error. -/
theorem C10_no_writes_on_failure (lv : Except String VectorDB)
    (ac : String → VectorDB → UserData → Except String AnalysisResult)
    (u : User) (now : Nat) (db : DB) :
    (∀ e, lv = .error e →
      agent.run_company_analysis lv ac u now db = (db, .error e)) ∧
    (∀ vdb e, lv = .ok vdb →
      ac u.name vdb
          (agent.mkUserData u (agent.latestReportDate db u.user_id)) = .error e →
      agent.run_company_analysis lv ac u now db = (db, .error e)) := by
  constructor
  · intro e h
    subst h
    rfl
  · intro vdb e h1 h2
    subst h1
    simp only [agent.run_company_analysis, h2]

/-- Witness for C10: with the failing analysis routine the database is
returned untouched together with the error. -/
theorem C10_no_writes_on_failure_witness :
    agent.run_company_analysis (.ok vdbEx) anlzFail user1 0 dbEx =
      (dbEx, .error "boom") :=
  (C10_no_writes_on_failure (.ok vdbEx) anlzFail user1 0 dbEx).2 vdbEx "boom" rfl rfl
